import Mathlib

/-!
Shallow embedding of `wagtail/admin/views/generic.py`: generic admin
CRUD views (IndexView, CreateView, EditView, DeleteView) together with
PermissionCheckedMixin and HookResponseMixin.

External collaborators (the Django request/response cycle, the ORM, the
form layer, the messages framework, URL reversal and the hook registry)
are modelled as pure data: side effects of a request are recorded in an
explicit event trace, the permission policy is a pair of boolean-valued
functions, and a form submission's validity is an input to the handler.
-/

/-- An external permission policy object, exposing the two query methods
the views call (`user_has_permission(user, action)` and
`user_has_any_permission(user, actions)`). Users are identified by a
natural number, actions by strings such as "add", "change", "delete". -/
structure PermissionPolicy where
  user_has_permission : Nat → String → Bool
  user_has_any_permission : Nat → List String → Bool

/-- The three class attributes consulted by `PermissionCheckedMixin`. -/
structure PermConfig where
  permission_policy : Option PermissionPolicy
  permission_required : Option String
  any_permission_required : Option (List String)

/-- The exception raised by `PermissionCheckedMixin.dispatch` on a failed
permission check (`django.core.exceptions.PermissionDenied`). -/
inductive PermissionDenied where
  | mk
deriving Repr, DecidableEq

/-- A query made against the permission policy object, recorded so that
which checks actually ran is observable. -/
inductive PolicyQuery where
  | has_permission (user : Nat) (action : String)
  | has_any_permission (user : Nat) (actions : List String)
deriving Repr, DecidableEq

/-- An incoming HTTP request; the views only consult `request.user`. -/
structure Request where
  user : Nat
deriving Repr, DecidableEq

/-- A persisted model instance. `id` is its primary key and `str` its
Python string form `str(instance)`, used by message formatting. -/
structure ModelObject where
  id : Nat
  str : String
deriving Repr, DecidableEq

/-- Model of Python `template.format(instance)` with a single positional
argument: each `\x7b\x7d` placeholder is replaced by `str(instance)`. -/
def pyFormat (template : String) (obj : ModelObject) : String :=
  template.replace "\x7b\x7d" obj.str

/-- Model of `django.urls.reverse`: resolves a URL pattern name and
positional args to a concrete URL path. -/
def reverse (urlName : String) (args : List Nat) : String :=
  "/" ++ urlName ++ String.join (args.map (fun a => "/" ++ toString a))

/-- An observable side effect performed while handling a request:
a database save (`form.save()`), a database delete, or a message pushed
through `wagtail.admin.messages` (`messages.success` carries an optional
text and a list of (url, label) buttons; `messages.error` a text). -/
inductive Event where
  | saveInstance (objId : Nat)
  | deleteInstance (objId : Nat)
  | successMessage (text : Option String) (buttons : List (String × String))
  | errorMessage (text : String)
deriving Repr, DecidableEq

def Event.isSuccessMessage : Event → Bool
  | .successMessage _ _ => true
  | _ => false

def Event.isErrorMessage : Event → Bool
  | .errorMessage _ => true
  | _ => false

def Event.isMessage (e : Event) : Bool :=
  e.isSuccessMessage || e.isErrorMessage

def Event.isSave : Event → Bool
  | .saveInstance _ => true
  | _ => false

/-- The response returned to the framework: a redirect
(`django.shortcuts.redirect`) or a re-render of the bound form template,
which carries the form's inline validation errors
(`super().form_invalid(form)`). -/
inductive Response where
  | redirect (url : String)
  | renderFormWithErrors
deriving Repr, DecidableEq

/-- `PermissionCheckedMixin.dispatch`: when `permission_policy` is not
None, check `permission_required` (if set) and then
`any_permission_required` (if set), raising `PermissionDenied` as soon
as a check fails; otherwise delegate to `super().dispatch`. The second
component records the policy queries actually made. -/
def PermissionCheckedMixin.dispatch {α : Type} (pc : PermConfig) (user : Nat)
    (superDispatch : Unit → α) : Except PermissionDenied α × List PolicyQuery :=
  match pc.permission_policy with
  | none => (Except.ok (superDispatch ()), [])
  | some policy =>
    match pc.permission_required with
    | some action =>
      if policy.user_has_permission user action then
        match pc.any_permission_required with
        | some actions =>
          if policy.user_has_any_permission user actions then
            (Except.ok (superDispatch ()),
             [PolicyQuery.has_permission user action,
              PolicyQuery.has_any_permission user actions])
          else
            (Except.error PermissionDenied.mk,
             [PolicyQuery.has_permission user action,
              PolicyQuery.has_any_permission user actions])
        | none =>
          (Except.ok (superDispatch ()), [PolicyQuery.has_permission user action])
      else
        (Except.error PermissionDenied.mk, [PolicyQuery.has_permission user action])
    | none =>
      match pc.any_permission_required with
      | some actions =>
        if policy.user_has_any_permission user actions then
          (Except.ok (superDispatch ()), [PolicyQuery.has_any_permission user actions])
        else
          (Except.error PermissionDenied.mk, [PolicyQuery.has_any_permission user actions])
      | none => (Except.ok (superDispatch ()), [])

/-- `permission_policy is None or permission_policy.user_has_permission(user, action)`,
the truthiness expression used by IndexView / EditView context data. -/
def permitsAction (pol : Option PermissionPolicy) (user : Nat) (action : String) : Bool :=
  match pol with
  | none => true
  | some p => p.user_has_permission user action

/-- Spec-side characterisation: the configuration denies the user, i.e.
`permission_policy` is set and a configured check fails. -/
def PermConfig.denies (pc : PermConfig) (user : Nat) : Bool :=
  match pc.permission_policy with
  | none => false
  | some p =>
    (match pc.permission_required with
     | some action => !(p.user_has_permission user action)
     | none => false)
    ||
    (match pc.any_permission_required with
     | some actions => !(p.user_has_any_permission user actions)
     | none => false)

/-- Events performed by a dispatched request: none when the dispatch
raised PermissionDenied. -/
def eventsOf : Except PermissionDenied (Response × List Event) → List Event
  | Except.error _ => []
  | Except.ok r => r.2

/-- Whether a form submission validated, and on success the object that
`form.save()` persists and returns. The form layer itself is external. -/
inductive FormResult where
  | valid (obj : ModelObject)
  | invalid
deriving Repr, DecidableEq

/-- Class attributes of `CreateView` consulted by the embedded methods. -/
structure CreateConfig where
  perm : PermConfig
  index_url_name : String
  add_url_name : String
  edit_url_name : String
  success_message : Option String
  error_message : Option String

/-- `CreateView.get_add_url`. -/
def CreateView.get_add_url (cfg : CreateConfig) : String :=
  reverse cfg.add_url_name []

/-- `CreateView.get_success_url`. -/
def CreateView.get_success_url (cfg : CreateConfig) : String :=
  reverse cfg.index_url_name []

/-- `CreateView.get_success_message(instance)`. -/
def CreateView.get_success_message (cfg : CreateConfig) (obj : ModelObject) :
    Option String :=
  match cfg.success_message with
  | none => none
  | some m => some (pyFormat m obj)

/-- `CreateView.get_error_message`. -/
def CreateView.get_error_message (cfg : CreateConfig) : Option String :=
  match cfg.error_message with
  | none => none
  | some m => some m

/-- `CreateView.save_instance`: `self.form.save()` persists the object
to the db and returns it; the save is recorded as an event. -/
def CreateView.save_instance (obj : ModelObject) : ModelObject × List Event :=
  (obj, [Event.saveInstance obj.id])

/-- `CreateView.form_valid`: save the instance, emit the success message
(with an Edit button) when one is configured, redirect to the success
URL. -/
def CreateView.form_valid (cfg : CreateConfig) (obj : ModelObject) :
    Response × List Event :=
  let saved := CreateView.save_instance obj
  let events :=
    match CreateView.get_success_message cfg saved.1 with
    | some msg =>
      saved.2 ++ [Event.successMessage (some msg)
        [(reverse cfg.edit_url_name [saved.1.id], "Edit")]]
    | none => saved.2
  (Response.redirect (CreateView.get_success_url cfg), events)

/-- `CreateView.form_invalid`: emit the error message when one is
configured, then `super().form_invalid(form)` re-renders the bound form
with its inline errors. -/
def CreateView.form_invalid (cfg : CreateConfig) : Response × List Event :=
  let events :=
    match CreateView.get_error_message cfg with
    | some msg => [Event.errorMessage msg]
    | none => []
  (Response.renderFormWithErrors, events)

/-- A full request to CreateView: `dispatch` performs the permission
checks, then the framework base view validates the form and calls
`form_valid` / `form_invalid`. -/
def CreateView.handle (cfg : CreateConfig) (req : Request) (fr : FormResult) :
    Except PermissionDenied (Response × List Event) :=
  (PermissionCheckedMixin.dispatch cfg.perm req.user (fun _ =>
    match fr with
    | FormResult.valid obj => CreateView.form_valid cfg obj
    | FormResult.invalid => CreateView.form_invalid cfg)).1

/-- Class attributes of `EditView` consulted by the embedded methods. -/
structure EditConfig where
  perm : PermConfig
  index_url_name : String
  edit_url_name : String
  delete_url_name : String
  success_message : Option String
  error_message : Option String

/-- `EditView.get_edit_url` (for `self.object`). -/
def EditView.get_edit_url (cfg : EditConfig) (obj : ModelObject) : String :=
  reverse cfg.edit_url_name [obj.id]

/-- `EditView.get_delete_url` (for `self.object`). -/
def EditView.get_delete_url (cfg : EditConfig) (obj : ModelObject) : String :=
  reverse cfg.delete_url_name [obj.id]

/-- `EditView.get_success_url`. -/
def EditView.get_success_url (cfg : EditConfig) : String :=
  reverse cfg.index_url_name []

/-- `EditView.get_success_message` (formats with `self.object`). -/
def EditView.get_success_message (cfg : EditConfig) (obj : ModelObject) :
    Option String :=
  match cfg.success_message with
  | none => none
  | some m => some (pyFormat m obj)

/-- `EditView.get_error_message`. -/
def EditView.get_error_message (cfg : EditConfig) : Option String :=
  match cfg.error_message with
  | none => none
  | some m => some m

/-- `EditView.save_instance`: `self.form.save()`. -/
def EditView.save_instance (obj : ModelObject) : ModelObject × List Event :=
  (obj, [Event.saveInstance obj.id])

/-- `EditView.form_valid`: save, emit the configured success message
(with an Edit button), redirect to the success URL. -/
def EditView.form_valid (cfg : EditConfig) (obj : ModelObject) :
    Response × List Event :=
  let saved := EditView.save_instance obj
  let events :=
    match EditView.get_success_message cfg saved.1 with
    | some msg =>
      saved.2 ++ [Event.successMessage (some msg)
        [(reverse cfg.edit_url_name [saved.1.id], "Edit")]]
    | none => saved.2
  (Response.redirect (EditView.get_success_url cfg), events)

/-- `EditView.form_invalid`: emit the configured error message, then
re-render the bound form with its inline errors. -/
def EditView.form_invalid (cfg : EditConfig) : Response × List Event :=
  let events :=
    match EditView.get_error_message cfg with
    | some msg => [Event.errorMessage msg]
    | none => []
  (Response.renderFormWithErrors, events)

/-- A full request to EditView, analogous to `CreateView.handle`. -/
def EditView.handle (cfg : EditConfig) (req : Request) (fr : FormResult) :
    Except PermissionDenied (Response × List Event) :=
  (PermissionCheckedMixin.dispatch cfg.perm req.user (fun _ =>
    match fr with
    | FormResult.valid obj => EditView.form_valid cfg obj
    | FormResult.invalid => EditView.form_invalid cfg)).1

/-- Class attributes of `DeleteView` consulted by the embedded methods. -/
structure DeleteConfig where
  perm : PermConfig
  index_url_name : String
  delete_url_name : String
  success_message : Option String

/-- `DeleteView.get_success_url`. -/
def DeleteView.get_success_url (cfg : DeleteConfig) : String :=
  reverse cfg.index_url_name []

/-- `DeleteView.get_delete_url` (for `self.object`). -/
def DeleteView.get_delete_url (cfg : DeleteConfig) (obj : ModelObject) : String :=
  reverse cfg.delete_url_name [obj.id]

/-- `DeleteView.get_success_message` (formats with `self.object`). -/
def DeleteView.get_success_message (cfg : DeleteConfig) (obj : ModelObject) :
    Option String :=
  match cfg.success_message with
  | none => none
  | some m => some (pyFormat m obj)

/-- `DeleteView.delete`: `super().delete(request)` (the framework base
deletes `self.object` and builds a redirect to `get_success_url`), then
`messages.success(request, self.get_success_message())` is called
unconditionally (with no buttons), then the response is returned. -/
def DeleteView.delete (cfg : DeleteConfig) (obj : ModelObject) :
    Response × List Event :=
  let response := Response.redirect (DeleteView.get_success_url cfg)
  let events := [Event.deleteInstance obj.id]
  (response, events ++ [Event.successMessage (DeleteView.get_success_message cfg obj) []])

/-- A full deletion request to DeleteView: permission checks, then the
framework routes the POST to `delete`. -/
def DeleteView.handle (cfg : DeleteConfig) (req : Request) (obj : ModelObject) :
    Except PermissionDenied (Response × List Event) :=
  (PermissionCheckedMixin.dispatch cfg.perm req.user (fun _ =>
    DeleteView.delete cfg obj)).1

/-- Class attributes of `IndexView` consulted by the embedded methods. -/
structure IndexConfig where
  perm : PermConfig
  index_url_name : String
  add_url_name : String
  edit_url_name : String

/-- A value stored in a template context: a Python bool or a tuple. -/
inductive CtxVal where
  | boolVal (b : Bool)
  | tupleVal (elems : List CtxVal)

/-- Python truthiness of a context value: a bool is itself, a tuple is
truthy iff non-empty. -/
def CtxVal.truthy : CtxVal → Bool
  | .boolVal b => b
  | .tupleVal elems => !elems.isEmpty

/-- `IndexView.get_context_data`: adds
`can_add = permission_policy is None or user_has_permission(user, 'add')`
(a plain bool) to the context. -/
def IndexView.get_context_data (cfg : IndexConfig) (user : Nat)
    (context : List (String × CtxVal)) : List (String × CtxVal) :=
  ("can_add", CtxVal.boolVal (permitsAction cfg.perm.permission_policy user "add"))
    :: context

/-- `EditView.get_context_data`: the assignment to `can_delete` ends in
a trailing comma, so the stored value is a one-element tuple wrapping
the permission bool. -/
def EditView.get_context_data (cfg : EditConfig) (user : Nat)
    (context : List (String × CtxVal)) : List (String × CtxVal) :=
  ("can_delete", CtxVal.tupleVal
      [CtxVal.boolVal (permitsAction cfg.perm.permission_policy user "delete")])
    :: context

/-- The result a hook callback returns: either a response-like object
carrying a `status_code` attribute, or anything else (including None). -/
inductive HookResult where
  | response (status_code : Nat)
  | noResponse
deriving Repr, DecidableEq

/-- `hasattr(result, 'status_code')`. -/
def HookResult.hasStatusCode : HookResult → Bool
  | .response _ => true
  | .noResponse => false

/-- A callback registered in the hook registry: invoking it is recorded
via its `id`, and it returns its fixed `result`. -/
structure Hook where
  id : Nat
  result : HookResult
deriving Repr, DecidableEq

/-- `HookResponseMixin.run_hook`: invoke the callbacks registered under
the hook name in order; return the first result that has a
`status_code` attribute, stopping there; return None when no callback
produced one. The second component is the list of callbacks invoked, in
invocation order. -/
def HookResponseMixin.run_hook : List Hook → Option HookResult × List Nat
  | [] => (none, [])
  | h :: rest =>
    if h.result.hasStatusCode then (some h.result, [h.id])
    else
      let r := HookResponseMixin.run_hook rest
      (r.1, h.id :: r.2)

/-! ## Helper lemmas -/

theorem dispatch_error_of_denies {α : Type} (pc : PermConfig) (user : Nat)
    (sd : Unit → α) (h : pc.denies user = true) :
    (PermissionCheckedMixin.dispatch pc user sd).1 = Except.error PermissionDenied.mk := by
  obtain ⟨pol, pr, apr⟩ := pc
  cases pol with
  | none => simp [PermConfig.denies] at h
  | some p =>
    cases pr with
    | none =>
      cases apr with
      | none => simp [PermConfig.denies] at h
      | some l =>
        simp [PermConfig.denies] at h
        simp [PermissionCheckedMixin.dispatch, h]
    | some a =>
      cases apr with
      | none =>
        simp [PermConfig.denies] at h
        simp [PermissionCheckedMixin.dispatch, h]
      | some l =>
        simp [PermConfig.denies] at h
        rcases h with h1 | h2
        · simp [PermissionCheckedMixin.dispatch, h1]
        · by_cases h1 : p.user_has_permission user a <;>
            simp [PermissionCheckedMixin.dispatch, h1, h2]

/-! ## Claims -/

/-- Claim C9: `PermissionCheckedMixin.dispatch` raises PermissionDenied
if and only if `permission_policy` is not None and either
`permission_required` is set with `user_has_permission` false, or
`any_permission_required` is set with `user_has_any_permission` false;
moreover when `permission_policy` is None no permission check is made at
all (the query trace is empty). Both-set configurations must pass both
checks, as the iff makes either failure raise. -/
theorem dispatch_denies_iff {α : Type} (pc : PermConfig) (user : Nat)
    (sd : Unit → α) :
    ((PermissionCheckedMixin.dispatch pc user sd).1 =
        Except.error PermissionDenied.mk ↔
      ∃ p, pc.permission_policy = some p ∧
        ((∃ a, pc.permission_required = some a ∧
            p.user_has_permission user a = false) ∨
         (∃ l, pc.any_permission_required = some l ∧
            p.user_has_any_permission user l = false))) ∧
    (pc.permission_policy = none →
      (PermissionCheckedMixin.dispatch pc user sd).2 = []) := by
  obtain ⟨pol, pr, apr⟩ := pc
  cases pol with
  | none => simp [PermissionCheckedMixin.dispatch]
  | some p =>
    cases pr with
    | none =>
      cases apr with
      | none => simp [PermissionCheckedMixin.dispatch]
      | some l =>
        by_cases h : p.user_has_any_permission user l <;>
          simp [PermissionCheckedMixin.dispatch, h]
    | some a =>
      cases apr with
      | none =>
        by_cases h : p.user_has_permission user a <;>
          simp [PermissionCheckedMixin.dispatch, h]
      | some l =>
        by_cases h1 : p.user_has_permission user a <;>
          by_cases h2 : p.user_has_any_permission user l <;>
            simp [PermissionCheckedMixin.dispatch, h1, h2]

/-- Claim C9 witness: a concrete configuration with no permission policy
makes no policy query. -/
theorem dispatch_denies_iff_witness :
    (PermissionCheckedMixin.dispatch ⟨none, some "add", none⟩ 0
      (fun _ => (0 : Nat))).2 = [] :=
  (dispatch_denies_iff ⟨none, some "add", none⟩ 0 (fun _ => (0 : Nat))).2 rfl

/-- Claim C1: a request to a view whose configuration denies the user
(non-None permission_policy with a failing configured check) is rejected
in dispatch: the handler result is PermissionDenied and no save, delete
or message event occurs, for CreateView, EditView and DeleteView alike. -/
theorem permission_gate_blocks_mutation
    (ccfg : CreateConfig) (ecfg : EditConfig) (dcfg : DeleteConfig)
    (req : Request) (fr : FormResult) (obj : ModelObject) :
    (ccfg.perm.denies req.user = true →
      CreateView.handle ccfg req fr = Except.error PermissionDenied.mk ∧
      eventsOf (CreateView.handle ccfg req fr) = []) ∧
    (ecfg.perm.denies req.user = true →
      EditView.handle ecfg req fr = Except.error PermissionDenied.mk ∧
      eventsOf (EditView.handle ecfg req fr) = []) ∧
    (dcfg.perm.denies req.user = true →
      DeleteView.handle dcfg req obj = Except.error PermissionDenied.mk ∧
      eventsOf (DeleteView.handle dcfg req obj) = []) := by
  refine ⟨fun h => ?_, fun h => ?_, fun h => ?_⟩ <;>
    [have e := dispatch_error_of_denies ccfg.perm req.user
        (fun _ => match fr with
          | FormResult.valid obj => CreateView.form_valid ccfg obj
          | FormResult.invalid => CreateView.form_invalid ccfg) h;
     have e := dispatch_error_of_denies ecfg.perm req.user
        (fun _ => match fr with
          | FormResult.valid obj => EditView.form_valid ecfg obj
          | FormResult.invalid => EditView.form_invalid ecfg) h;
     have e := dispatch_error_of_denies dcfg.perm req.user
        (fun _ => DeleteView.delete dcfg obj) h] <;>
    exact ⟨e, by
      simp [CreateView.handle, EditView.handle, DeleteView.handle] at e ⊢
      simp [e, eventsOf]⟩

/-- A policy that denies every user every action, for concrete checks. -/
def denyPolicy : PermissionPolicy :=
  ⟨fun _ _ => false, fun _ _ => false⟩

/-- A permission configuration that denies every user. -/
def denyPerm : PermConfig := ⟨some denyPolicy, some "add", none⟩

/-- Claim C1 witness: a concrete denied CreateView request is rejected
with no events. -/
theorem permission_gate_blocks_mutation_witness :
    CreateView.handle ⟨denyPerm, "people_index", "people_add", "people_edit", none, none⟩
        ⟨0⟩ FormResult.invalid = Except.error PermissionDenied.mk ∧
    eventsOf (CreateView.handle
        ⟨denyPerm, "people_index", "people_add", "people_edit", none, none⟩
        ⟨0⟩ FormResult.invalid) = [] :=
  (permission_gate_blocks_mutation
    ⟨denyPerm, "people_index", "people_add", "people_edit", none, none⟩
    ⟨denyPerm, "people_index", "people_edit", "people_delete", none, none⟩
    ⟨denyPerm, "people_index", "people_delete", none⟩
    ⟨0⟩ FormResult.invalid ⟨7, "Seven"⟩).1 (by rfl)

theorem run_hook_no_response (hs : List Hook)
    (h : ∀ g ∈ hs, g.result.hasStatusCode = false) :
    HookResponseMixin.run_hook hs = (none, hs.map Hook.id) := by
  induction hs with
  | nil => rfl
  | cons g rest ih =>
    have hg : g.result.hasStatusCode = false := h g (List.mem_cons_self g rest)
    have hrest := ih (fun x hx => h x (List.mem_cons_of_mem g hx))
    simp [HookResponseMixin.run_hook, hg, hrest]

theorem run_hook_finds_first (pre : List Hook) (h : Hook) (post : List Hook)
    (hpre : ∀ g ∈ pre, g.result.hasStatusCode = false)
    (hh : h.result.hasStatusCode = true) :
    HookResponseMixin.run_hook (pre ++ h :: post) =
      (some h.result, pre.map Hook.id ++ [h.id]) := by
  induction pre with
  | nil => simp [HookResponseMixin.run_hook, hh]
  | cons g rest ih =>
    have hg : g.result.hasStatusCode = false := hpre g (List.mem_cons_self g rest)
    have hrest := ih (fun x hx => hpre x (List.mem_cons_of_mem g hx))
    simp [HookResponseMixin.run_hook, hg, hrest]

/-- Claim C2: `run_hook` invokes the registered callbacks in registered
order; it returns the result of the first callback whose result has a
`status_code` attribute, invoking no later callback (the invocation
trace is exactly the callbacks up to and including that one); when no
callback returns such a result it returns None after invoking all of
them. -/
theorem run_hook_short_circuits (hs pre post : List Hook) (h : Hook) :
    ((∀ g ∈ hs, g.result.hasStatusCode = false) →
      HookResponseMixin.run_hook hs = (none, hs.map Hook.id)) ∧
    (hs = pre ++ h :: post →
      (∀ g ∈ pre, g.result.hasStatusCode = false) →
      h.result.hasStatusCode = true →
      HookResponseMixin.run_hook hs = (some h.result, pre.map Hook.id ++ [h.id])) := by
  constructor
  · exact run_hook_no_response hs
  · rintro rfl hpre hh
    exact run_hook_finds_first pre h post hpre hh

/-- Claim C2 witness: with callbacks 1 (no response), 2 (a response with
status code 302) and 3 registered in that order, `run_hook` returns
callback 2's response having invoked exactly callbacks 1 and 2. -/
theorem run_hook_short_circuits_witness :
    HookResponseMixin.run_hook
        [⟨1, HookResult.noResponse⟩, ⟨2, HookResult.response 302⟩,
         ⟨3, HookResult.noResponse⟩] =
      (some (HookResult.response 302), [1, 2]) :=
  (run_hook_short_circuits
    [⟨1, HookResult.noResponse⟩, ⟨2, HookResult.response 302⟩,
     ⟨3, HookResult.noResponse⟩]
    [⟨1, HookResult.noResponse⟩] [⟨3, HookResult.noResponse⟩]
    ⟨2, HookResult.response 302⟩).2 rfl (by decide) rfl

/-- A CreateView configuration with both message templates left at their
None defaults. -/
def noMsgCreateConfig : CreateConfig :=
  ⟨⟨none, some "add", none⟩, "people_index", "people_add", "people_edit", none, none⟩

/-- A sample persisted object. -/
def sampleObject : ModelObject := ⟨7, "Seven"⟩

/-- Claim C3 counterexample: with `success_message` at its None default,
a valid CreateView submission completes (saves and redirects) while
emitting zero messages, not exactly one. -/
theorem create_completes_with_zero_messages :
    CreateView.handle noMsgCreateConfig ⟨0⟩ (FormResult.valid sampleObject) =
      Except.ok (Response.redirect (reverse "people_index" []),
        [Event.saveInstance 7]) ∧
    ¬ ((eventsOf (CreateView.handle noMsgCreateConfig ⟨0⟩
          (FormResult.valid sampleObject))).countP Event.isMessage = 1) := by
  constructor
  · rfl
  · decide

/-- Claim C3, amended: a completed mutating request emits at most one
message — exactly one for a valid Create/Edit submission when
`success_message` is configured and zero when it is None, and exactly
one for every completed DeleteView deletion. -/
theorem one_message_iff_configured (ccfg : CreateConfig) (ecfg : EditConfig)
    (dcfg : DeleteConfig) (obj : ModelObject) :
    (CreateView.form_valid ccfg obj).2.countP Event.isMessage =
      (if ccfg.success_message.isSome then 1 else 0) ∧
    (EditView.form_valid ecfg obj).2.countP Event.isMessage =
      (if ecfg.success_message.isSome then 1 else 0) ∧
    (DeleteView.delete dcfg obj).2.countP Event.isMessage = 1 := by
  refine ⟨?_, ?_, ?_⟩
  · cases h : ccfg.success_message <;>
      simp [CreateView.form_valid, CreateView.save_instance,
        CreateView.get_success_message, h, List.countP, List.countP.go,
        Event.isMessage, Event.isSuccessMessage, Event.isErrorMessage]
  · cases h : ecfg.success_message <;>
      simp [EditView.form_valid, EditView.save_instance,
        EditView.get_success_message, h, List.countP, List.countP.go,
        Event.isMessage, Event.isSuccessMessage, Event.isErrorMessage]
  · simp [DeleteView.delete, List.countP, List.countP.go,
      Event.isMessage, Event.isSuccessMessage, Event.isErrorMessage]

/-- Claim C4: on every request outcome — valid or invalid Create/Edit
form, completed delete — at most one success message and at most one
error message are emitted. -/
theorem at_most_one_message_per_outcome (ccfg : CreateConfig)
    (ecfg : EditConfig) (dcfg : DeleteConfig) (obj : ModelObject) :
    ((CreateView.form_valid ccfg obj).2.countP Event.isSuccessMessage ≤ 1 ∧
     (CreateView.form_valid ccfg obj).2.countP Event.isErrorMessage ≤ 1) ∧
    ((CreateView.form_invalid ccfg).2.countP Event.isSuccessMessage ≤ 1 ∧
     (CreateView.form_invalid ccfg).2.countP Event.isErrorMessage ≤ 1) ∧
    ((EditView.form_valid ecfg obj).2.countP Event.isSuccessMessage ≤ 1 ∧
     (EditView.form_valid ecfg obj).2.countP Event.isErrorMessage ≤ 1) ∧
    ((EditView.form_invalid ecfg).2.countP Event.isSuccessMessage ≤ 1 ∧
     (EditView.form_invalid ecfg).2.countP Event.isErrorMessage ≤ 1) ∧
    ((DeleteView.delete dcfg obj).2.countP Event.isSuccessMessage ≤ 1 ∧
     (DeleteView.delete dcfg obj).2.countP Event.isErrorMessage ≤ 1) := by
  refine ⟨?_, ?_, ?_, ?_, ?_⟩
  · cases h : ccfg.success_message <;>
      simp [CreateView.form_valid, CreateView.save_instance,
        CreateView.get_success_message, h, List.countP, List.countP.go,
        Event.isSuccessMessage, Event.isErrorMessage]
  · cases h : ccfg.error_message <;>
      simp [CreateView.form_invalid, CreateView.get_error_message, h,
        List.countP, List.countP.go, Event.isSuccessMessage, Event.isErrorMessage]
  · cases h : ecfg.success_message <;>
      simp [EditView.form_valid, EditView.save_instance,
        EditView.get_success_message, h, List.countP, List.countP.go,
        Event.isSuccessMessage, Event.isErrorMessage]
  · cases h : ecfg.error_message <;>
      simp [EditView.form_invalid, EditView.get_error_message, h,
        List.countP, List.countP.go, Event.isSuccessMessage, Event.isErrorMessage]
  · simp [DeleteView.delete, List.countP, List.countP.go,
      Event.isSuccessMessage, Event.isErrorMessage]

/-- Claim C5: on every successful mutating request, the response is a
redirect to the reversal of the configured `index_url_name`, for
CreateView, EditView and DeleteView alike. -/
theorem redirect_targets_index_url (ccfg : CreateConfig) (ecfg : EditConfig)
    (dcfg : DeleteConfig) (obj : ModelObject) :
    (CreateView.form_valid ccfg obj).1 =
      Response.redirect (reverse ccfg.index_url_name []) ∧
    (EditView.form_valid ecfg obj).1 =
      Response.redirect (reverse ecfg.index_url_name []) ∧
    (DeleteView.delete dcfg obj).1 =
      Response.redirect (reverse dcfg.index_url_name []) := by
  refine ⟨?_, ?_, ?_⟩
  · cases h : ccfg.success_message <;>
      simp [CreateView.form_valid, CreateView.get_success_url,
        CreateView.get_success_message, h]
  · cases h : ecfg.success_message <;>
      simp [EditView.form_valid, EditView.get_success_url,
        EditView.get_success_message, h]
  · simp [DeleteView.delete, DeleteView.get_success_url]

/-- Claim C6: on a valid Create/Edit form submission the event trace
starts with the save of the submitted object, everything after it is a
message, the save happens exactly once (so never after a message), and
the response — produced last — is the redirect to the success URL. -/
theorem save_then_message_then_redirect (ccfg : CreateConfig)
    (ecfg : EditConfig) (obj : ModelObject) :
    ((CreateView.form_valid ccfg obj).2.head? =
        some (Event.saveInstance obj.id) ∧
     (CreateView.form_valid ccfg obj).2.tail.all Event.isMessage = true ∧
     (CreateView.form_valid ccfg obj).2.countP Event.isSave = 1 ∧
     (CreateView.form_valid ccfg obj).1 =
        Response.redirect (CreateView.get_success_url ccfg)) ∧
    ((EditView.form_valid ecfg obj).2.head? =
        some (Event.saveInstance obj.id) ∧
     (EditView.form_valid ecfg obj).2.tail.all Event.isMessage = true ∧
     (EditView.form_valid ecfg obj).2.countP Event.isSave = 1 ∧
     (EditView.form_valid ecfg obj).1 =
        Response.redirect (EditView.get_success_url ecfg)) := by
  constructor
  · cases h : ccfg.success_message <;>
      simp [CreateView.form_valid, CreateView.save_instance,
        CreateView.get_success_message, h, List.countP, List.countP.go,
        Event.isSave, Event.isMessage, Event.isSuccessMessage]
  · cases h : ecfg.success_message <;>
      simp [EditView.form_valid, EditView.save_instance,
        EditView.get_success_message, h, List.countP, List.countP.go,
        Event.isSave, Event.isMessage, Event.isSuccessMessage]

/-- Claim C7 counterexample: with `error_message` at its None default,
an invalid CreateView submission re-renders the form but emits zero
flashed error messages, not one. -/
theorem invalid_form_without_flash :
    CreateView.form_invalid noMsgCreateConfig =
      (Response.renderFormWithErrors, []) ∧
    ¬ ((CreateView.form_invalid noMsgCreateConfig).2.countP
        Event.isErrorMessage = 1) := by
  constructor
  · rfl
  · decide

/-- Claim C7, amended: an invalid Create/Edit submission re-renders the
bound form (which carries the inline errors) and flashes exactly one
error message when `error_message` is configured, and none when it is
None; no success message is emitted. -/
theorem invalid_form_flash_iff_configured (ccfg : CreateConfig)
    (ecfg : EditConfig) :
    ((CreateView.form_invalid ccfg).1 = Response.renderFormWithErrors ∧
     (CreateView.form_invalid ccfg).2.countP Event.isErrorMessage =
        (if ccfg.error_message.isSome then 1 else 0) ∧
     (CreateView.form_invalid ccfg).2.countP Event.isSuccessMessage = 0) ∧
    ((EditView.form_invalid ecfg).1 = Response.renderFormWithErrors ∧
     (EditView.form_invalid ecfg).2.countP Event.isErrorMessage =
        (if ecfg.error_message.isSome then 1 else 0) ∧
     (EditView.form_invalid ecfg).2.countP Event.isSuccessMessage = 0) := by
  constructor
  · cases h : ccfg.error_message <;>
      simp [CreateView.form_invalid, CreateView.get_error_message, h,
        List.countP, List.countP.go, Event.isErrorMessage, Event.isSuccessMessage]
  · cases h : ecfg.error_message <;>
      simp [EditView.form_invalid, EditView.get_error_message, h,
        List.countP, List.countP.go, Event.isErrorMessage, Event.isSuccessMessage]

/-- Claim C8: EditView stores `can_delete` as a one-element tuple around
the permission bool — so its truthiness is unconditionally true, even
when the policy denies 'delete' — while IndexView stores `can_add` as
the plain bool (true iff the policy is None or grants 'add'). -/
theorem can_delete_tuple_can_add_bool (ecfg : EditConfig)
    (icfg : IndexConfig) (user : Nat) (ctx : List (String × CtxVal)) :
    (EditView.get_context_data ecfg user ctx).lookup "can_delete" =
      some (CtxVal.tupleVal [CtxVal.boolVal
        (permitsAction ecfg.perm.permission_policy user "delete")]) ∧
    ((EditView.get_context_data ecfg user ctx).lookup "can_delete").map
        CtxVal.truthy = some true ∧
    (IndexView.get_context_data icfg user ctx).lookup "can_add" =
      some (CtxVal.boolVal
        (permitsAction icfg.perm.permission_policy user "add")) := by
  refine ⟨?_, ?_, ?_⟩
  · simp [EditView.get_context_data, List.lookup]
  · simp [EditView.get_context_data, List.lookup, CtxVal.truthy]
  · simp [IndexView.get_context_data, List.lookup]

/-- Claim C10: every completed DeleteView deletion emits the success
message unconditionally, after the deletion; when `success_message` is
None the emitted message text is None rather than a formatted string. -/
theorem delete_always_messages (dcfg : DeleteConfig) (obj : ModelObject) :
    (DeleteView.delete dcfg obj).2 =
      [Event.deleteInstance obj.id,
       Event.successMessage (DeleteView.get_success_message dcfg obj) []] ∧
    (dcfg.success_message = none →
      DeleteView.get_success_message dcfg obj = none) := by
  constructor
  · rfl
  · intro h
    simp [DeleteView.get_success_message, h]

/-- Claim C10 witness: a concrete deletion with `success_message = None`
emits a success message whose text is None, after the delete. -/
theorem delete_always_messages_witness :
    (DeleteView.delete ⟨⟨none, some "delete", none⟩, "people_index",
        "people_delete", none⟩ sampleObject).2 =
      [Event.deleteInstance 7, Event.successMessage none []] ∧
    DeleteView.get_success_message ⟨⟨none, some "delete", none⟩,
        "people_index", "people_delete", none⟩ sampleObject = none := by
  have h := delete_always_messages
    ⟨⟨none, some "delete", none⟩, "people_index", "people_delete", none⟩
    sampleObject
  exact ⟨(h.1).trans (by rw [h.2 rfl]; rfl), h.2 rfl⟩
